import Mathlib

/-!
Verification of the EmbeddedChat theming and component-override layer.

The definitions below are a shallow embedding of the repository's code:
the `useTheme` hook and `invertMode` helper, the `useComponentOverrides`
resolution convention, and the behavioural skeletons of the `Message`,
`MessageHeader` and `MessageToolbox` components.  JavaScript objects with
optional fields become Lean structures with `Option` fields; JavaScript
`undefined` becomes `none`; the JS `||` fallback with its truthiness rules
is embedded explicitly.
-/

/-- A color set: a mapping from semantic color-role name to a color value,
embedded as an association list (a plain JS object in the source). -/
abbrev ColorSet := List (String × String)

/-- A theme: named schemes per mode plus miscellaneous design tokens.
Shape from the theming guide: `{ name, schemes: {light, dark, ...}, radius }`. -/
structure Theme where
  name : String
  schemes : List (String × ColorSet)
  radius : String
deriving Repr, DecidableEq

/-- `theme.schemes?.[mode]` — optional-chained property lookup: absent
scheme maps to `none` (JS `undefined`). -/
def schemesGet (t : Theme) (mode : String) : Option ColorSet :=
  List.lookup mode t.schemes

/-- Modelled from the spec: the light color set of the built-in
`DefaultTheme` module, which is imported by `useTheme` but absent from the
sources; per the spec a color set maps semantic roles such as
`background`, `foreground`, `border`, `secondaryForeground` to values. -/
def defaultLightColors : ColorSet :=
  [("background", "#ffffff"), ("foreground", "#2f343d"),
   ("border", "#dfdfdf"), ("secondaryForeground", "#6c727a")]

/-- Modelled from the spec: the dark color set of the built-in
`DefaultTheme` module (absent from the sources). -/
def defaultDarkColors : ColorSet :=
  [("background", "#2f343d"), ("foreground", "#ffffff"),
   ("border", "#404a52"), ("secondaryForeground", "#9ea2a8")]

/-- Modelled from the spec: the built-in `DefaultTheme` (its module is not
in the sources; the spec requires it to define both a `light` and a `dark`
scheme). -/
def DefaultTheme : Theme :=
  { name := "default"
    schemes := [("light", defaultLightColors), ("dark", defaultDarkColors)]
    radius := "0.2rem" }

/-- `const invertMode = (mode) => (mode === 'light' ? 'dark' : 'light');` -/
def invertMode (mode : String) : String :=
  if mode == "light" then "dark" else "light"

/-- The value carried by `ThemeContext` and returned by `useTheme`:
`{ theme, mode, colors, invertedColors, setMode, setTheme }`.  The setters
are embedded as functions returning the update they schedule; the no-op
setter `() => {}` schedules nothing, i.e. returns `none`. -/
structure ThemeContextValue where
  theme : Theme
  mode : String
  colors : Option ColorSet
  invertedColors : Option ColorSet
  setMode : String → Option String
  setTheme : Theme → Option Theme

/-- The `useTheme` hook.  With no ambient context it builds the default
result exactly as the source does (`colors = defaultTheme.schemes?.[defaultMode]`,
`invertedColors = defaultTheme.schemes?.[invertMode(defaultMode)]`, no-op
setters); with a context present it returns the context unchanged. -/
def useTheme (context : Option ThemeContextValue) : ThemeContextValue :=
  match context with
  | none =>
    { theme := DefaultTheme
      mode := "light"
      colors := schemesGet DefaultTheme "light"
      invertedColors := schemesGet DefaultTheme (invertMode "light")
      setMode := fun _ => none
      setTheme := fun _ => none }
  | some c => c

/-- C5: `invertMode` swaps "light" and "dark" and is an involution on that
closed two-value set. -/
theorem invertMode_involutive_on_light_dark :
    invertMode "light" = "dark" ∧ invertMode "dark" = "light" ∧
    invertMode (invertMode "light") = "light" ∧
    invertMode (invertMode "dark") = "dark" := by
  decide

/-- C3: with no theme context, `useTheme` returns the built-in default
theme, mode "light", the default theme's light scheme as `colors`, its
dark scheme as `invertedColors`, and setters that schedule nothing. -/
theorem useTheme_no_context_defaults :
    (useTheme none).theme = DefaultTheme ∧
    (useTheme none).mode = "light" ∧
    (useTheme none).colors = some defaultLightColors ∧
    (useTheme none).colors = schemesGet DefaultTheme "light" ∧
    (useTheme none).invertedColors = some defaultDarkColors ∧
    (useTheme none).invertedColors = schemesGet DefaultTheme "dark" ∧
    (∀ m, (useTheme none).setMode m = none) ∧
    (∀ t, (useTheme none).setTheme t = none) := by
  refine ⟨rfl, rfl, by decide, rfl, by decide, rfl, fun m => rfl, fun t => rfl⟩

/-- C4: with a context present, `useTheme` returns it verbatim; hence a
context built by the provider convention (`invertedColors` looked up at
the inverted mode) over a theme with no "dark" scheme yields
`invertedColors = none` (JS `undefined`), not an error. -/
theorem useTheme_context_verbatim (c : ThemeContextValue)
    (hmode : c.mode = "light")
    (hconv : c.invertedColors = schemesGet c.theme (invertMode c.mode))
    (hnodark : schemesGet c.theme "dark" = none) :
    useTheme (some c) = c ∧ (useTheme (some c)).invertedColors = none := by
  refine ⟨rfl, ?_⟩
  show c.invertedColors = none
  rw [hconv, hmode]
  simpa [invertMode] using hnodark

/-- Witness for C4 at a concrete context whose theme has no "dark"
scheme. -/
theorem useTheme_context_verbatim_witness :
    useTheme (some
      { theme := { name := "bare", schemes := [("light", [])], radius := "0" }
        mode := "light"
        colors := some []
        invertedColors := none
        setMode := fun _ => none
        setTheme := fun _ => none }) =
      { theme := { name := "bare", schemes := [("light", [])], radius := "0" }
        mode := "light"
        colors := some []
        invertedColors := none
        setMode := fun _ => none
        setTheme := fun _ => none } ∧
    (useTheme (some
      { theme := { name := "bare", schemes := [("light", [])], radius := "0" }
        mode := "light"
        colors := some []
        invertedColors := none
        setMode := fun _ => none
        setTheme := fun _ => none })).invertedColors = none :=
  useTheme_context_verbatim _ rfl rfl rfl

/-- A style object (`style = {}` / `styleOverrides`), embedded as an
association list of CSS declarations. -/
abbrev Style := List (String × String)

/-- The `optionConfig` object nested inside a `configOverrides` registry
entry: both item lists are optional there. -/
structure OptionConfigOverride where
  surfaceItems : Option (List String)
  menuItems : Option (List String)
deriving Repr, DecidableEq

/-- A registry entry's `configOverrides` value: a nested configuration
object whose `optionConfig` sub-field may be absent. -/
structure ConfigOverrides where
  optionConfig : Option OptionConfigOverride
deriving Repr, DecidableEq

/-- One Override Registry entry:
`{ styleOverrides?, classNames?, variantOverrides?, configOverrides? }`,
every field optional. -/
structure OverrideEntry where
  styleOverrides : Option Style
  classNames : Option String
  variantOverrides : Option String
  configOverrides : Option ConfigOverrides
deriving Repr, DecidableEq

/-- The Override Registry: a host-supplied mapping from component name to
override entry. -/
abbrev OverrideRegistry := List (String × OverrideEntry)

/-- The object returned by the Override Resolver: the same four optional
fields. -/
structure ResolvedOverride where
  styleOverrides : Option Style
  classNames : Option String
  variantOverrides : Option String
  configOverrides : Option ConfigOverrides
deriving Repr, DecidableEq

/-- The all-empty resolved override: every field `none` (JS `undefined`). -/
def emptyResolved : ResolvedOverride :=
  { styleOverrides := none, classNames := none
    variantOverrides := none, configOverrides := none }

/-- Modelled from the spec: the `useComponentOverrides` hook itself is not
in the sources (only its call sites are).  Per the spec it looks the
component name up in the registry, treats an absent entry as all-empty,
and returns the raw override object without merging the call-site
`className`/`style` arguments (merge policy belongs to each component). -/
def useComponentOverrides (registry : OverrideRegistry)
    (componentName : String) (_className : Option String)
    (_style : Option Style) : ResolvedOverride :=
  match List.lookup componentName registry with
  | none => emptyResolved
  | some e =>
    { styleOverrides := e.styleOverrides
      classNames := e.classNames
      variantOverrides := e.variantOverrides
      configOverrides := e.configOverrides }

/-- C1: for any component name with no registry entry, the resolver
returns the object with every field empty/undefined; it is a total
function, so it never throws. -/
theorem useComponentOverrides_absent_all_empty
    (registry : OverrideRegistry) (componentName : String)
    (className : Option String) (style : Option Style)
    (habs : List.lookup componentName registry = none) :
    useComponentOverrides registry componentName className style =
      emptyResolved ∧
    (useComponentOverrides registry componentName className
      style).styleOverrides = none ∧
    (useComponentOverrides registry componentName className
      style).classNames = none ∧
    (useComponentOverrides registry componentName className
      style).variantOverrides = none ∧
    (useComponentOverrides registry componentName className
      style).configOverrides = none := by
  unfold useComponentOverrides
  rw [habs]
  exact ⟨rfl, rfl, rfl, rfl, rfl⟩

/-- Witness for C1: a registry holding only a "MessageBody" entry resolves
the unknown name "NoSuchComponent" to the all-empty result. -/
theorem useComponentOverrides_absent_all_empty_witness :
    useComponentOverrides
      [("MessageBody",
        { styleOverrides := some [("color", "red")], classNames := some "x"
          variantOverrides := some "bubble", configOverrides := none })]
      "NoSuchComponent" (some "cls") (some []) = emptyResolved ∧
    (useComponentOverrides
      [("MessageBody",
        { styleOverrides := some [("color", "red")], classNames := some "x"
          variantOverrides := some "bubble", configOverrides := none })]
      "NoSuchComponent" (some "cls") (some [])).styleOverrides = none ∧
    (useComponentOverrides
      [("MessageBody",
        { styleOverrides := some [("color", "red")], classNames := some "x"
          variantOverrides := some "bubble", configOverrides := none })]
      "NoSuchComponent" (some "cls") (some [])).classNames = none ∧
    (useComponentOverrides
      [("MessageBody",
        { styleOverrides := some [("color", "red")], classNames := some "x"
          variantOverrides := some "bubble", configOverrides := none })]
      "NoSuchComponent" (some "cls") (some [])).variantOverrides = none ∧
    (useComponentOverrides
      [("MessageBody",
        { styleOverrides := some [("color", "red")], classNames := some "x"
          variantOverrides := some "bubble", configOverrides := none })]
      "NoSuchComponent" (some "cls") (some [])).configOverrides = none :=
  useComponentOverrides_absent_all_empty _ _ _ _ (by decide)

/-- C9: the resolver is deterministic — two calls with identical arguments
against the same registry produce structurally equal results (the
embedding is a pure function of its arguments, with no hidden state). -/
theorem useComponentOverrides_deterministic
    (registry : OverrideRegistry) (componentName : String)
    (className : Option String) (style : Option Style) :
    useComponentOverrides registry componentName className style =
      useComponentOverrides registry componentName className style :=
  rfl

/-- JS truthiness of an optional string: `undefined` and `""` are falsy. -/
def jsTruthyStr : Option String → Bool
  | none => false
  | some s => !(s == "")

/-- The JS `||` fallback on an optional string value (`v || d`). -/
def jsOrStr (v : Option String) (d : String) : String :=
  if jsTruthyStr v then v.getD d else d

/-- The JS `||` fallback on an optional array value: arrays are always
truthy in JS (even `[]`), so only `undefined` falls back. -/
def jsOrList (v : Option (List String)) (d : List String) : List String :=
  v.getD d

/-- `const displayNameVariant = variantOverrides || 'Normal';` from the
MessageHeader snippet of the theming guide. -/
def displayNameVariant (variantOverrides : Option String) : String :=
  jsOrStr variantOverrides "Normal"

/-- The MessageToolbox's built-in `optionConfig`: both item lists are
always present there. -/
structure OptionConfig where
  surfaceItems : List String
  menuItems : List String
deriving Repr, DecidableEq

/-- One entry of the toolbox's `options` map: id, label, icon, an opaque
click-handler tag, a kind tag and a visibility flag. -/
structure ToolOption where
  id : String
  label : String
  iconName : String
  onClick : String
  type : String
  visible : Bool
deriving Repr, DecidableEq

/-- `const surfaceItems = configOverrides.optionConfig?.surfaceItems ||
optionConfig.surfaceItems;` — per-field first-defined-wins fallback. -/
def resolvedSurfaceItems (configOverrides : ConfigOverrides)
    (optionConfig : OptionConfig) : List String :=
  jsOrList (configOverrides.optionConfig.bind OptionConfigOverride.surfaceItems)
    optionConfig.surfaceItems

/-- `const menuItems = configOverrides.optionConfig?.menuItems ||
optionConfig.menuItems;` — per-field first-defined-wins fallback. -/
def resolvedMenuItems (configOverrides : ConfigOverrides)
    (optionConfig : OptionConfig) : List String :=
  jsOrList (configOverrides.optionConfig.bind OptionConfigOverride.menuItems)
    optionConfig.menuItems

/-- The menu-option object the toolbox builds per visible item:
`{ id, action: onClick, label, icon: iconName }`. -/
structure MenuOptionR where
  id : String
  action : String
  label : String
  icon : String
deriving Repr, DecidableEq

/-- `menuItems?.map(item => options[item]?.visible ? {...} : null)
.filter(option => option !== null)` from the MessageToolbox snippet. -/
def menuOptionsOf (menuItems : List String)
    (options : List (String × ToolOption)) : List (Option MenuOptionR) :=
  (menuItems.map (fun item =>
    match List.lookup item options with
    | some o =>
      if o.visible then
        some { id := o.id, action := o.onClick, label := o.label
               icon := o.iconName }
      else none
    | none => none)).filter (fun o => o.isSome)

/-- Modelled from the spec: the MessageToolbox's built-in `options` map is
not in the sources (the snippet reads `options[item]`); per the spec it
enumerates the toolbox actions, each with id, label, icon, handler and a
visibility flag, "reply" among them and visible. -/
def toolboxOptions : List (String × ToolOption) :=
  [("reply",
    { id := "reply", label := "Reply", iconName := "thread"
      onClick := "handleOpenThread", type := "icon", visible := true }),
   ("star",
    { id := "star", label := "Star", iconName := "star"
      onClick := "handleStarMessage", type := "icon", visible := true }),
   ("pin",
    { id := "pin", label := "Pin", iconName := "pin"
      onClick := "handlePinMessage", type := "icon", visible := true }),
   ("edit",
    { id := "edit", label := "Edit", iconName := "edit"
      onClick := "handleEditMessage", type := "icon", visible := true }),
   ("delete",
    { id := "delete", label := "Delete", iconName := "trash"
      onClick := "handleDeleteMessage", type := "icon", visible := true }),
   ("report",
    { id := "report", label := "Report", iconName := "report"
      onClick := "handleReportMessage", type := "icon", visible := true })]

/-- Modelled from the spec: the toolbox's built-in `optionConfig` default
item lists are not in the sources; per the spec they list the default
surface and menu actions. -/
def builtinOptionConfig : OptionConfig :=
  { surfaceItems := ["reply", "star", "pin"]
    menuItems := ["pin", "edit", "delete", "report"] }

/-- The toolbox menu pipeline wired to the resolver: resolve
"MessageToolbox", take `configOverrides` (an absent one is treated as the
empty object here; only the defined path is exercised by the claims),
apply the per-field fallback and build the menu options. -/
def renderMessageToolboxMenu (registry : OverrideRegistry) :
    List (Option MenuOptionR) :=
  let r := useComponentOverrides registry "MessageToolbox" none none
  let co := r.configOverrides.getD { optionConfig := none }
  menuOptionsOf (resolvedMenuItems co builtinOptionConfig) toolboxOptions

/-- C7: the toolbox takes `surfaceItems` and `menuItems` from
`configOverrides.optionConfig` when the field is defined and from its own
built-in `optionConfig` otherwise, independently for each field (no deep
merge). -/
theorem messageToolbox_first_defined_wins (xs ms : List String)
    (om os : Option (List String)) (builtin : OptionConfig) :
    resolvedSurfaceItems
      { optionConfig := some { surfaceItems := some xs, menuItems := om } }
      builtin = xs ∧
    resolvedSurfaceItems
      { optionConfig := some { surfaceItems := none, menuItems := om } }
      builtin = builtin.surfaceItems ∧
    resolvedSurfaceItems { optionConfig := none } builtin =
      builtin.surfaceItems ∧
    resolvedMenuItems
      { optionConfig := some { surfaceItems := os, menuItems := some ms } }
      builtin = ms ∧
    resolvedMenuItems
      { optionConfig := some { surfaceItems := os, menuItems := none } }
      builtin = builtin.menuItems ∧
    resolvedMenuItems { optionConfig := none } builtin =
      builtin.menuItems :=
  ⟨rfl, rfl, rfl, rfl, rfl, rfl⟩

/-- The C8 scenario registry:
`{ MessageToolbox: { configOverrides: { optionConfig: { menuItems: ["reply"] } } } }`. -/
def c8Registry : OverrideRegistry :=
  [("MessageToolbox",
    { styleOverrides := none, classNames := none, variantOverrides := none
      configOverrides := some ⟨some ⟨none, some ["reply"]⟩⟩ })]

/-- C8: with the override `menuItems: ["reply"]`, the toolbox menu holds
exactly one option — the one labeled for "reply" — and no others. -/
theorem messageToolbox_reply_only_menu :
    renderMessageToolboxMenu c8Registry =
      [some { id := "reply", action := "handleOpenThread", label := "Reply"
              icon := "thread" }] ∧
    (renderMessageToolboxMenu c8Registry).length = 1 := by
  decide

/-- The `u` field of a message: the sending user. -/
structure MessageUser where
  username : String
deriving Repr, DecidableEq

/-- The fields of a message object that the Message component reads:
`u.username`, the system-message tag `t`, markdown body presence `md`,
pending flag and timestamp. -/
structure ChatMessage where
  u : MessageUser
  t : Option String
  md : Option String
  isPending : Bool
  ts : Nat
deriving Repr, DecidableEq

/-- A variant style set as the Message component probes it: its `name`
tag (`variantStyles?.name`) and its `messageParent` css
(`variantStyles.messageParent`). -/
structure VariantStyles where
  name : Option String
  messageParent : Option String
deriving Repr, DecidableEq

/-- The empty style set `{}` chosen for non-bubble variants. -/
def emptyVariantStyles : VariantStyles :=
  { name := none, messageParent := none }

/-- Modelled from the spec: `useBubbleStyles` (BubbleVariant) is not in
the sources; per the spec the bubble variant supplies the bubble layout
style set, parameterized by `isMe`, and its `name` tags the bubble
variant (the Message source tests `variantStyles?.name?.includes("bubble")`). -/
def useBubbleStyles (isMe : Bool) : VariantStyles :=
  { name := some "bubbleStyles"
    messageParent :=
      some (if isMe then "bubble-parent-me" else "bubble-parent-other") }

/-- Modelled from the spec: `useMessageStyles().main`, the plain layout's
parent css (its styles module is not in the sources). -/
def messageStylesMain : String := "message-main"

/-- Bool-valued infix test on character lists, by scanning suffixes. -/
def infixCheck (sub : List Char) : List Char → Bool
  | [] => List.isPrefixOf sub []
  | c :: rest => List.isPrefixOf sub (c :: rest) || infixCheck sub rest

/-- JS `s.includes(sub)`: substring containment. -/
def jsIncludes (s sub : String) : Bool :=
  infixCheck sub.toList s.toList

/-- What the Message component renders, as observable decisions: the
`isMe` comparison, the resolved variant tag (the `variantOverrides`
parameter after its `"default"` default), the chosen style set, the
parent css (`variantStyles.messageParent || styles.main`), whether the
header is rendered (`!sequential`), the header's `showDisplayName` prop
(`none` when the spread does not add it), whether the body renders
(`!message.t`) and whether the new-day divider renders. -/
structure MessageRender where
  isMe : Bool
  variantTag : String
  variantStyles : VariantStyles
  messageParentCss : String
  showHeader : Bool
  headerShowDisplayName : Option Bool
  showBody : Bool
  showDivider : Bool
deriving Repr, DecidableEq

/-- The Message component (Message.js).  `variantOverrides = "default"`
is a JS default parameter: it applies exactly when the prop is absent
(`none`).  `isMe` is `message.u.username === "spiral_memory"`.  The
header's `showDisplayName: !isMe` prop is spread in only when
`variantStyles?.name?.includes("bubble")` holds. -/
def renderMessage (message : ChatMessage)
    (sequential lastSequential newDay : Bool)
    (variantOverrides : Option String) : MessageRender :=
  let variantTag := variantOverrides.getD "default"
  let isMe := message.u.username == "spiral_memory"
  let bubbleStyles := useBubbleStyles isMe
  let variantStyles :=
    if variantTag == "bubble" then bubbleStyles else emptyVariantStyles
  let shouldShowHeader := !sequential
  let _ := lastSequential
  { isMe := isMe
    variantTag := variantTag
    variantStyles := variantStyles
    messageParentCss := variantStyles.messageParent.getD messageStylesMain
    showHeader := shouldShowHeader
    headerShowDisplayName :=
      if shouldShowHeader then
        match variantStyles.name with
        | some n => if jsIncludes n "bubble" then some (!isMe) else none
        | none => none
      else none
    showBody := !(jsTruthyStr message.t)
    showDivider := newDay }

/-- Modelled from the spec: the call site that "explicitly requests
overrides for Message" and forwards the resolved variant tag into the
component is not in the sources; per the spec it resolves "Message" in
the registry and renders the message with the resolved tag (undefined
when absent, engaging the component's own default parameter). -/
def renderMessageWithRegistry (registry : OverrideRegistry)
    (message : ChatMessage)
    (sequential lastSequential newDay : Bool) : MessageRender :=
  renderMessage message sequential lastSequential newDay
    (useComponentOverrides registry "Message" none none).variantOverrides

/-- The C2 scenario registry: `{ Message: { variantOverrides: "bubble" } }`. -/
def c2Registry : OverrideRegistry :=
  [("Message",
    { styleOverrides := none, classNames := none
      variantOverrides := some "bubble", configOverrides := none })]

/-- C2: with registry `{Message: {variantOverrides: "bubble"}}` and the
prop unset at the call site, the Message resolves the bubble variant:
bubble styles are selected and the parent css is the bubble layout's,
not the plain one. -/
theorem message_bubble_variant_from_registry (message : ChatMessage)
    (sequential lastSequential newDay : Bool) :
    (renderMessageWithRegistry c2Registry message sequential lastSequential
      newDay).variantTag = "bubble" ∧
    (renderMessageWithRegistry c2Registry message sequential lastSequential
      newDay).variantStyles =
      useBubbleStyles (message.u.username == "spiral_memory") ∧
    (renderMessageWithRegistry c2Registry message sequential lastSequential
      newDay).messageParentCss =
      (if message.u.username == "spiral_memory" then "bubble-parent-me"
       else "bubble-parent-other") ∧
    (renderMessageWithRegistry c2Registry message sequential lastSequential
      newDay).messageParentCss ≠ messageStylesMain := by
  refine ⟨rfl, rfl, rfl, ?_⟩
  show (if message.u.username == "spiral_memory" then "bubble-parent-me"
    else "bubble-parent-other") ≠ messageStylesMain
  cases h : message.u.username == "spiral_memory" <;> simp [messageStylesMain]

/-- C6: a registry entry with no variant tag leaves each consumer on its
own literal default — "Normal" for the MessageHeader display-name variant
(also for a falsy empty tag), "default" for the Message layout variant. -/
theorem component_specific_variant_defaults (so : Option Style)
    (cn : Option String) (co : Option ConfigOverrides)
    (message : ChatMessage) (sequential lastSequential newDay : Bool) :
    displayNameVariant
      (useComponentOverrides [("MessageHeader", ⟨so, cn, none, co⟩)]
        "MessageHeader" none none).variantOverrides = "Normal" ∧
    displayNameVariant none = "Normal" ∧
    displayNameVariant (some "") = "Normal" ∧
    (renderMessageWithRegistry [("Message", ⟨so, cn, none, co⟩)] message
      sequential lastSequential newDay).variantTag = "default" ∧
    (renderMessage message sequential lastSequential newDay
      none).variantTag = "default" :=
  ⟨rfl, rfl, rfl, rfl, rfl⟩

/-- C10: `isMe` is exactly the strict comparison of `message.u.username`
with the literal "spiral_memory" (whatever the other message fields are),
and in the bubble variant the header's display name is shown exactly when
that comparison is false; outside the bubble variant the prop is not
added. -/
theorem message_isMe_literal_comparison (message : ChatMessage)
    (lastSequential newDay : Bool) :
    (renderMessage message false lastSequential newDay
      (some "bubble")).isMe = (message.u.username == "spiral_memory") ∧
    (renderMessage message false lastSequential newDay
      (some "bubble")).headerShowDisplayName =
      some (!(message.u.username == "spiral_memory")) ∧
    (renderMessage message false lastSequential newDay
      none).headerShowDisplayName = none :=
  ⟨rfl, rfl, rfl⟩
